import Mathlib

/-
Verification of artak74/arbitrage-signals-landing.

Shallow embedding of the two source files:
  * src/signal_extractor.py, class ProfessionalSignalExtractor
    (tier-1 route extraction, tier-2 pass/fail classification,
    failure-reason cleanup, failure categorisation);
  * src/main.py, class CustomerDatabase (pricing lookup, activation,
    pricing transitions / grandfathering, API-key verification) and
    class NOWPaymentsHandler (payment confirmation).

JSON values are modelled with typed records whose optional fields are
Option (a Python dict.get with a default becomes Option.getD).
Machine clock readings (datetime.utcnow) are modelled as a now : Nat
parameter, with timestamps as Nat and SQL / Python comparisons
a < b resp. b > a kept strict as in the source.  SQLite rows become Lean
structures; a table becomes a List; an SQL UPDATE ... WHERE becomes a
List.map of a conditional record update; fetchone of a SELECT ... WHERE
becomes List.find?.  Fresh UUID-derived API keys are passed in as
parameters (the source draws them from uuid.uuid4).
-/

namespace ArbSig

/-- Character-list head test: `matchesAt s pat` is true when `pat` occurs
at the head of `s`.  Helper for the Python substring operator `in`. -/
def matchesAt : List Char → List Char → Bool
  | _, [] => true
  | [], _ :: _ => false
  | c :: cs, p :: ps => c == p && matchesAt cs ps

/-- Character-list substring test: true when `pat` occurs contiguously
anywhere in the second list.  Helper for the Python substring operator
`in`. -/
def listHasSub (pat : List Char) : List Char → Bool
  | [] => matchesAt [] pat
  | c :: cs => matchesAt (c :: cs) pat || listHasSub pat cs

/-- The Python substring operator for strings (`pat in s`): contiguous
substring containment. -/
def strContains (s pat : String) : Bool :=
  listHasSub pat.data s.data

/-- The Python string method `upper` (the strings compared in the source
are ASCII, for which `Char.toUpper` agrees with the Python per-character
uppercasing). -/
def strUpper (s : String) : String :=
  ⟨s.data.map Char.toUpper⟩

/-- The Python string method `lower` (ASCII, see `strUpper`). -/
def strLower (s : String) : String :=
  ⟨s.data.map Char.toLower⟩

/-- Case-insensitive string equality: equality after uppercasing both
sides.  Used to state the case-insensitive comparison the spec
describes. -/
def caseInsensEq (a b : String) : Bool :=
  strUpper a == strUpper b

/-- One simulated-cycle record from an exchange bot2 JSON file
(src/signal_extractor.py).  Only JSON keys the extractor reads are
modelled; absent keys are `none`. -/
structure Cycle where
  executable : Option Bool := none
  simulation_result : Option String := none
  failure_reason : Option String := none
  failure_category : Option String := none
  execution_confidence : Option Rat := none
  simulation_timestamp : Option String := none
deriving Repr, DecidableEq

/-- ProfessionalSignalExtractor._is_cycle_executable
(src/signal_extractor.py lines 385-390):
cycle.get("executable", False) and
cycle.get("simulation_result", "").upper() == "SUCCESS". -/
def is_cycle_executable (c : Cycle) : Bool :=
  c.executable.getD false && (strUpper (c.simulation_result.getD "") == "SUCCESS")

/-- ProfessionalSignalExtractor._extract_failure_reason
(src/signal_extractor.py lines 394-411): ordered substring checks over the
lowercased raw reason, falling back to the raw reason verbatim. -/
def extract_failure_reason (c : Cycle) : String :=
  let failure_reason := c.failure_reason.getD "Unknown validation failure"
  if strContains (strLower failure_reason) "profit below threshold" then
    "Profit margin too low after real-time price check"
  else if strContains (strLower failure_reason) "liquidity" then
    "Insufficient liquidity on exchange orderbook"
  else if strContains (strLower failure_reason) "price" then
    "Price moved unfavorably since initial detection"
  else if strContains (strLower failure_reason) "network" then
    "Network congestion or high transfer fees"
  else if strContains (strLower failure_reason) "timeout" then
    "Exchange API response too slow for execution"
  else
    failure_reason

/-- The category_map dict of ProfessionalSignalExtractor._categorize_failure
(src/signal_extractor.py lines 418-425), as an association list (its keys
are pairwise distinct, so lookup order is irrelevant). -/
def category_map : List (String × String) :=
  [("PRICE_MOVEMENT", "Market Price Change"),
   ("LIQUIDITY_INSUFFICIENT", "Low Liquidity"),
   ("NETWORK_CONGESTION", "Network Issues"),
   ("API_TIMEOUT", "Exchange Problems"),
   ("PROFIT_TOO_LOW", "Profit Threshold"),
   ("UNKNOWN", "Technical Issues")]

/-- ProfessionalSignalExtractor._categorize_failure
(src/signal_extractor.py lines 413-427):
category_map.get(failure_category, failure_category) where
failure_category = cycle.get("failure_category", "UNKNOWN").  Note the
second argument of the dict get: the default is the raw category itself,
not a fixed constant. -/
def categorize_failure (c : Cycle) : String :=
  let failure_category := c.failure_category.getD "UNKNOWN"
  (category_map.lookup failure_category).getD failure_category

/-- The validation fields a Tier-2 FAILED signal carries: exactly the keys
written by the update call in
ProfessionalSignalExtractor._format_tier2_failed_signal
(src/signal_extractor.py lines 364-380), except signal_id.  The Tier-1
base fields produced by _format_tier1_signal_from_bot2 are carried over
unchanged and are not modelled here: no claim depends on them.
`validation_timestamp` keeps the simulation_timestamp of the cycle when
present (the source substitutes the wall clock when it is absent). -/
structure Tier2FailedSignal where
  validation_status : String
  executable : Bool
  execution_confidence : Rat
  simulation_result : String
  validation_timestamp : Option String
  failure_reason : String
  failure_category : String
  liquidity_sufficient : Bool
  network_healthy : Bool
  price_stable : Bool
  execution_ready : Bool
deriving Repr, DecidableEq

/-- ProfessionalSignalExtractor._format_tier2_failed_signal
(src/signal_extractor.py lines 355-382): validation fields of the FAILED
output signal.  `executable` is set to the literal False. -/
def format_tier2_failed_signal (c : Cycle) : Tier2FailedSignal :=
  let failure_reason := extract_failure_reason c
  let failure_category := categorize_failure c
  { validation_status := "FAILED"
    executable := false
    execution_confidence := c.execution_confidence.getD 0
    simulation_result := c.simulation_result.getD "FAILED"
    validation_timestamp := c.simulation_timestamp
    failure_reason := failure_reason
    failure_category := failure_category
    liquidity_sufficient := !(strContains (strLower failure_reason) "liquidity")
    network_healthy := !(strContains (strLower failure_reason) "network")
    price_stable := !(strContains (strLower failure_reason) "price")
    execution_ready := false }

/-- The ordered rule table for failure-reason cleanup described by the
spec (section 4.2): pattern / replacement pairs in priority order. -/
def failure_rules : List (String × String) :=
  [("profit below threshold", "Profit margin too low after real-time price check"),
   ("liquidity", "Insufficient liquidity on exchange orderbook"),
   ("price", "Price moved unfavorably since initial detection"),
   ("network", "Network congestion or high transfer fees"),
   ("timeout", "Exchange API response too slow for execution")]

/-- First-match evaluation of an ordered substring rule table: the first
rule whose pattern occurs in `hay` wins; when none matches, `fallback` is
returned.  Stated from the words of the spec (ordered substring matching
in priority order, fallback to the raw reason verbatim). -/
def ordered_first_match : List (String × String) → String → String → String
  | [], _, fallback => fallback
  | (pat, txt) :: rest, hay, fallback =>
    if strContains hay pat then txt else ordered_first_match rest hay fallback

/-- The Python builtin round(x, d) over rationals: round to `d` decimal
places.  (Python rounds floats with bankers rounding; `round` on `ℚ`
rounds half-up.  No claim depends on the tie-breaking rule.) -/
def roundDec (d : Nat) (x : Rat) : Rat :=
  ((round (x * (10 : Rat) ^ d) : Int) : Rat) / (10 : Rat) ^ d

/-- The profitability sub-object of a route in an exchange tokens2e JSON
file. -/
structure Profitability where
  profitPercent : Option Rat := none
  profit : Option Rat := none
  requiredCapital : Option Rat := none
deriving Repr, DecidableEq

/-- One arbitrage route of a token entry in an exchange tokens2e JSON
file (the keys read by _format_tier1_signal_from_tokens2e and by the
extraction loop). -/
structure Route where
  routeId : Option String := none
  status : Option String := none
  toCex : Option String := none
  network : Option String := none
  score : Option Rat := none
  confidence : Option Rat := none
  estimatedDuration : Option Rat := none
  profitability : Profitability := {}
deriving Repr, DecidableEq

/-- One token entry of an exchange tokens2e JSON file. -/
structure TokenData where
  symbol : Option String := none
  arbitrageRoutes : List Route := []
deriving Repr, DecidableEq

/-- The route_details sub-dict of a Tier-1 signal. -/
structure RouteDetails where
  from_exchange : String
  to_exchange : String
  network : String
  status : String
  confidence : Rat
deriving Repr, DecidableEq

/-- A Tier-1 signal as built by
ProfessionalSignalExtractor._format_tier1_signal_from_tokens2e
(src/signal_extractor.py lines 207-247).  The wall-clock reading used in
signal_id is the `now` parameter (epoch seconds); the ISO timestamp
string field is not modelled (no claim depends on it). -/
structure Tier1Signal where
  signal_id : String
  tier : Nat
  source_exchange : String
  route_id : String
  token_symbol : String
  token_pair : String
  trading_route : String
  total_profit_percent : Rat
  required_capital_usdt : Rat
  expected_profit_usdt : Rat
  execution_time_minutes : Rat
  network_primary : String
  total_score : Rat
  route_details : RouteDetails
  raw_data : Route
deriving Repr, DecidableEq

/-- ProfessionalSignalExtractor._format_tier1_signal_from_tokens2e
(src/signal_extractor.py lines 207-247). -/
def format_tier1_signal_from_tokens2e
    (token_data : TokenData) (route : Route) (exchange : String) (now : Nat) :
    Tier1Signal :=
  let symbol := token_data.symbol.getD "UNKNOWN"
  let route_id := route.routeId.getD "unknown"
  let profit_percent := route.profitability.profitPercent.getD 0
  let profit_amount := route.profitability.profit.getD 0
  let from_exchange := strUpper exchange
  let to_exchange := strUpper (route.toCex.getD "UNKNOWN")
  let network := route.network.getD "UNKNOWN"
  { signal_id := "T1_" ++ from_exchange ++ "_" ++ symbol ++ "_" ++ route_id
      ++ "_" ++ toString now
    tier := 1
    source_exchange := from_exchange
    route_id := route_id
    token_symbol := symbol
    token_pair := symbol ++ "/USDT"
    trading_route := from_exchange ++ " → " ++ to_exchange
    total_profit_percent := roundDec 3 profit_percent
    required_capital_usdt := route.profitability.requiredCapital.getD 500
    expected_profit_usdt := roundDec 2 profit_amount
    execution_time_minutes := route.estimatedDuration.getD 15
    network_primary := network
    total_score := route.score.getD 0
    route_details :=
      { from_exchange := from_exchange
        to_exchange := to_exchange
        network := network
        status := route.status.getD "UNKNOWN"
        confidence := route.confidence.getD (4 / 5) }
    raw_data := route }

/-- The per-exchange core of
ProfessionalSignalExtractor._extract_tier1_from_tokens2e_files
(src/signal_extractor.py lines 176-205): for every token entry, for every
route, append a formatted signal exactly when
route.get("status") == "PROFITABLE".  File reading and the per-exchange
error isolation are outside this pure core. -/
def extract_tier1_from_tokens2e
    (tokens_data : List TokenData) (exchange : String) (now : Nat) :
    List Tier1Signal :=
  tokens_data.flatMap fun token_data =>
    token_data.arbitrageRoutes.filterMap fun route =>
      if route.status == some "PROFITABLE" then
        some (format_tier1_signal_from_tokens2e token_data route exchange now)
      else
        none

/-- Subscription tier.  Stored as TEXT in the customers table; rows only
ever receive one of the three values the subscribe endpoint validates
(any tier outside basic / pro / enterprise is rejected with a 400 before
a row is created), so the column is modelled as this inductive. -/
inductive Tier
  | basic
  | pro
  | enterprise
deriving Repr, DecidableEq

/-- Launch and regular monthly price of a tier. -/
structure TierPricing where
  launch : Int
  regular : Int
deriving Repr, DecidableEq

/-- The pricing table of CustomerDatabase (src/main.py lines 153-157). -/
def pricing : Tier → TierPricing
  | .basic => { launch := 67, regular := 97 }
  | .pro => { launch := 147, regular := 297 }
  | .enterprise => { launch := 497, regular := 1500 }

/-- One row of the customers table (src/main.py lines 164-176).
Timestamps are epoch-style Nat values; NULLable columns are Option.
current_price is a whole-dollar amount (the REAL column only ever holds
values copied from the integer pricing table). -/
structure Customer where
  id : String := ""
  email : String := ""
  tier : Tier := .basic
  api_key : Option String := none
  subscription_status : String := "trial"
  trial_ends_at : Option Nat := none
  launch_pricing_ends_at : Option Nat := none
  next_billing_date : Option Nat := none
  current_price : Int := 0
  is_grandfathered : Bool := false
deriving Repr, DecidableEq

/-- One row of the payments table (src/main.py lines 178-187). -/
structure Payment where
  id : String := ""
  customer_id : String := ""
  nowpayments_id : String := ""
  amount_usd : Int := 0
  pricing_type : String := "launch"
  status : String := "waiting"
deriving Repr, DecidableEq

/-- The persistent store: the customers and payments tables.
(The api_usage table is reporting-only and not modelled.) -/
structure Database where
  customers : List Customer := []
  payments : List Payment := []
deriving Repr, DecidableEq

/-- How a Python exception leaves the handlers of src/main.py: either a
deliberate HTTPException with a status code and detail message, or an
unhandled TypeError from subscripting a None row (NoneType object is not
subscriptable, surfaced by the framework as a 500). -/
inductive PyError
  | httpException (status : Nat) (detail : String)
  | noneAccess
deriving Repr, DecidableEq

/-- CustomerDatabase.get_customer_price (src/main.py lines 212-234).
The source guards the expiry comparison with a truthiness test on the
stored launch_pricing_ends_at TIMESTAMP — NULL is falsy, a stored
timestamp is truthy — hence the match on the Option. -/
def get_customer_price
    (customers : List Customer) (customer_id : String) (tier : Tier) (now : Nat) :
    Int :=
  match customers.find? fun c => c.id == customer_id with
  | none => (pricing tier).launch
  | some customer =>
    if customer.is_grandfathered then
      customer.current_price
    else
      match customer.launch_pricing_ends_at with
      | some launch_end =>
        if launch_end < now then (pricing tier).regular else (pricing tier).launch
      | none => (pricing tier).launch

/-- Whether the launch-pricing window of a customer has expired at time
`now` (absent end date: the window has not expired). -/
def launch_window_expired (c : Customer) (now : Nat) : Bool :=
  match c.launch_pricing_ends_at with
  | some launch_end => decide (launch_end < now)
  | none => false

/-- The three-case PricingPolicy of spec section 4.4, stated from its
words: (1) grandfathered → return the frozen current_price; (2) launch
window expired → return tier.regular; (3) otherwise → return tier.launch,
evaluated in order.  Comparison definition for the refinement claim about
`get_customer_price`. -/
def pricing_policy_spec
    (tier : Tier) (grandfathered : Bool) (frozen : Int) (window_expired : Bool) :
    Int :=
  if grandfathered then frozen
  else if window_expired then (pricing tier).regular
  else (pricing tier).launch

/-- The dict returned by CustomerDatabase.activate_subscription
(src/main.py lines 280-287). -/
structure ActivationResult where
  customer_id : String
  api_key : String
  tier : Tier
  current_price : Int
  next_billing : Nat
  status : String
deriving Repr, DecidableEq

/-- CustomerDatabase.activate_subscription (src/main.py lines 263-287).
Unconditional row update: a fresh key (`fresh_api_key`, drawn from
uuid.uuid4 in the source) is written together with
subscription_status = "active" and next_billing_date = now + 30 days for
whichever row matches `customer_id`; the row is then re-read.  When no
row matches, the re-read returns None and the source subscripts it
(customer["tier"]), raising a TypeError — the committed table is returned
alongside the raised error. -/
def activate_subscription
    (customers : List Customer) (customer_id : String) (fresh_api_key : String)
    (now : Nat) :
    List Customer × Except PyError ActivationResult :=
  let customers' := customers.map fun c =>
    if c.id == customer_id then
      { c with
          subscription_status := "active"
          api_key := some fresh_api_key
          next_billing_date := some (now + 30) }
    else c
  match customers'.find? fun c => c.id == customer_id with
  | none => (customers', .error .noneAccess)
  | some customer =>
    (customers',
     .ok { customer_id := customer_id
           api_key := fresh_api_key
           tier := customer.tier
           current_price := customer.current_price
           next_billing := now + 30
           status := "activated" })

/-- The per-row update of CustomerDatabase.check_pricing_transitions
(src/main.py lines 289-313): a row matching the SELECT filter
(launch_pricing_ends_at < now, not grandfathered, status "active") is
updated to is_grandfathered = TRUE with current_price set to its own
present value (the source computes the regular price into a new_price
variable but writes the present current_price); other rows are
untouched. -/
def grandfather_step (now : Nat) (c : Customer) : Customer :=
  if c.launch_pricing_ends_at.any (fun launch_end => decide (launch_end < now))
      && !c.is_grandfathered && (c.subscription_status == "active") then
    { c with is_grandfathered := true, current_price := c.current_price }
  else c

/-- CustomerDatabase.check_pricing_transitions (src/main.py lines
289-313): the SELECT-then-UPDATE loop over the customers table, as a map
of the per-row transition. -/
def check_pricing_transitions (customers : List Customer) (now : Nat) :
    List Customer :=
  customers.map (grandfather_step now)

/-- The per-tier permission sets of
CustomerDatabase._get_tier_permissions (src/main.py lines 348-375). -/
structure Permissions where
  tier1_access : Bool
  tier2_access : Bool
  api_calls_per_minute : Nat
  webhook_access : Bool
  priority_access : Bool
deriving Repr, DecidableEq

/-- CustomerDatabase._get_tier_permissions (src/main.py lines 348-375).
The source default branch (unrecognised tier falls back to the basic
permission set) is unreachable here because the tier column is modelled
by the validated inductive `Tier`. -/
def get_tier_permissions : Tier → Permissions
  | .basic =>
    { tier1_access := true, tier2_access := false, api_calls_per_minute := 60,
      webhook_access := false, priority_access := false }
  | .pro =>
    { tier1_access := true, tier2_access := true, api_calls_per_minute := 300,
      webhook_access := false, priority_access := false }
  | .enterprise =>
    { tier1_access := true, tier2_access := true, api_calls_per_minute := 1000,
      webhook_access := true, priority_access := true }

/-- The dict returned by CustomerDatabase.verify_api_access on success
(src/main.py lines 339-346). -/
structure AccessInfo where
  customer_id : String
  tier : Tier
  email : String
  current_price : Int
  is_grandfathered : Bool
  permissions : Permissions
deriving Repr, DecidableEq

/-- The success payload of verify_api_access for a customer row. -/
def access_info (c : Customer) : AccessInfo :=
  { customer_id := c.id
    tier := c.tier
    email := c.email
    current_price := c.current_price
    is_grandfathered := c.is_grandfathered
    permissions := get_tier_permissions c.tier }

/-- CustomerDatabase.verify_api_access (src/main.py lines 315-346).
The SELECT by api_key matches only rows whose api_key equals the
presented string (a NULL api_key matches nothing).  No match raises
HTTPException 401 "Invalid API key"; a matching row with status "trial"
and utcnow() past trial_ends_at raises HTTPException 402
"Trial expired - payment required"; a trial row with a NULL trial_ends_at
would make datetime.fromisoformat raise a TypeError (`noneAccess`).  The
api_usage INSERT on the success path is reporting-only and not
modelled. -/
def verify_api_access (customers : List Customer) (key : String) (now : Nat) :
    Except PyError AccessInfo :=
  match customers.find? fun c => c.api_key == some key with
  | none => .error (.httpException 401 "Invalid API key")
  | some customer =>
    if customer.subscription_status == "trial" then
      match customer.trial_ends_at with
      | none => .error .noneAccess
      | some trial_end =>
        if trial_end < now then
          .error (.httpException 402 "Trial expired - payment required")
        else
          .ok (access_info customer)
    else
      .ok (access_info customer)

/-- NOWPaymentsHandler.handle_payment_confirmation (src/main.py lines
436-457).  The SELECT joining payments to customers on
p.customer_id = c.id, filtered by p.nowpayments_id, yields a row only
when both the payment and its customer exist; no row raises
HTTPException 404 "Payment not found".  Otherwise the customer is
activated via activate_subscription (which commits on its own
connection) and the payment row status is set to "completed". -/
def handle_payment_confirmation
    (db : Database) (payment_id : String) (fresh_api_key : String) (now : Nat) :
    Database × Except PyError ActivationResult :=
  match db.payments.find? fun p => p.nowpayments_id == payment_id with
  | none => (db, .error (.httpException 404 "Payment not found"))
  | some payment =>
    match db.customers.find? fun c => c.id == payment.customer_id with
    | none => (db, .error (.httpException 404 "Payment not found"))
    | some _ =>
      let activated := activate_subscription db.customers payment.customer_id
        fresh_api_key now
      match activated.2 with
      | .ok result =>
        ({ customers := activated.1
           payments := db.payments.map fun p =>
             if p.nowpayments_id == payment_id then { p with status := "completed" }
             else p },
         .ok result)
      | .error e => ({ db with customers := activated.1 }, .error e)

/-- The API key carried by a successful activation result, if any. -/
def minted_key : Except PyError ActivationResult → Option String
  | .ok r => some r.api_key
  | .error _ => none

/-- C2: a simulated cycle is classified PASSED exactly when its
executable field is the JSON boolean true and its simulation_result is
case-insensitively equal to "success"; every other combination is FAILED
(in particular executable = true with simulation_result = "PARTIAL"), and
the executable field of every FAILED output signal is forced to
false. -/
theorem cycle_pass_iff_strict_and (c : Cycle) :
    (is_cycle_executable c = true ↔
      (c.executable = some true ∧
        caseInsensEq (c.simulation_result.getD "") "success" = true)) ∧
    (format_tier2_failed_signal c).executable = false ∧
    is_cycle_executable
      { c with executable := some true, simulation_result := some "PARTIAL" } = false := by
  refine ⟨?_, rfl, rfl⟩
  have hopt : ∀ o : Option Bool, (o.getD false = true ↔ o = some true) := by
    intro o; cases o <;> simp
  have hsucc : strUpper "success" = "SUCCESS" := rfl
  simp only [is_cycle_executable, caseInsensEq, hsucc, Bool.and_eq_true, hopt]

/-- C8: the customer-facing failure reason is exactly the first-match
evaluation of the ordered substring rule table (profit-threshold wording,
then liquidity, then price, then network, then timeout) over the
lowercased raw reason, falling back to the raw reason verbatim — so a raw
reason matching an earlier rule never yields the text of a later
rule. -/
theorem extract_failure_reason_ordered_rules (c : Cycle) :
    extract_failure_reason c =
      ordered_first_match failure_rules
        (strLower (c.failure_reason.getD "Unknown validation failure"))
        (c.failure_reason.getD "Unknown validation failure") := rfl

/-- Rewriting a filterMap whose function is an if-guarded some into a
filter followed by a map. -/
theorem filterMap_if_eq_map_filter {α β : Type} (p : α → Bool) (f : α → β)
    (l : List α) :
    (l.filterMap fun a => if p a then some (f a) else none) =
      (l.filter p).map f := by
  induction l with
  | nil => rfl
  | cons a t ih =>
    by_cases h : p a <;> simp [List.filterMap_cons, List.filter_cons, h, ih]

/-- C7 (amended): the tier-1 extraction emits exactly one signal per
route whose status equals the uppercase canonical marker "PROFITABLE"
(case-sensitive), in input order, and every route with any other status —
including the lowercase spelling — is silently dropped. -/
theorem extract_tier1_emits_uppercase_profitable_only
    (tokens_data : List TokenData) (exchange : String) (now : Nat) :
    extract_tier1_from_tokens2e tokens_data exchange now =
      tokens_data.flatMap fun token_data =>
        (token_data.arbitrageRoutes.filter fun route =>
            route.status == some "PROFITABLE").map
          fun route =>
            format_tier1_signal_from_tokens2e token_data route exchange now := by
  unfold extract_tier1_from_tokens2e
  simp only [filterMap_if_eq_map_filter]

/-- C7 (counterexample): a route whose status is the lowercase string
"profitable" yields no emitted signal, although the claim — which names
the lowercase string as the marker — requires exactly one. -/
theorem lowercase_profitable_route_dropped :
    extract_tier1_from_tokens2e
      [{ symbol := some "ABC",
         arbitrageRoutes := [{ status := some "profitable" }] }] "binance" 0 = [] ∧
    ("profitable" : String) ≠ "PROFITABLE" := ⟨rfl, by decide⟩

/-- C3 (counterexample): a failure category absent from the lookup table
is returned verbatim, not mapped to "Technical Issues" as the claim
states. -/
theorem categorize_failure_unlisted_counterexample :
    categorize_failure { failure_category := some "ORDERBOOK_EMPTY" } =
      "ORDERBOOK_EMPTY" ∧
    category_map.lookup "ORDERBOOK_EMPTY" = none ∧
    ("ORDERBOOK_EMPTY" : String) ≠ "Technical Issues" := ⟨rfl, rfl, by decide⟩

/-- C3 (amended): the failure category is derived from the fixed lookup
table; a missing category field defaults to "UNKNOWN", which the table
maps to "Technical Issues"; a present category listed in the table maps
to its table entry; a present category not listed in the table is
returned unchanged. -/
theorem categorize_failure_table_behavior (c : Cycle) :
    (c.failure_category = none → categorize_failure c = "Technical Issues") ∧
    (∀ cat txt, c.failure_category = some cat →
      category_map.lookup cat = some txt → categorize_failure c = txt) ∧
    (∀ cat, c.failure_category = some cat →
      category_map.lookup cat = none → categorize_failure c = cat) := by
  refine ⟨?_, ?_, ?_⟩
  · intro h
    simp only [categorize_failure, h]
    rfl
  · intro cat txt h hl
    simp only [categorize_failure, h, Option.getD_some]
    rw [hl]
    rfl
  · intro cat h hl
    simp only [categorize_failure, h, Option.getD_some]
    rw [hl]
    rfl

/-- C3 (witness): the amended table behaviour evaluated on a listed
category and on a record with no category field. -/
theorem categorize_failure_table_behavior_witness :
    categorize_failure { failure_category := some "API_TIMEOUT" } =
      "Exchange Problems" ∧
    categorize_failure {} = "Technical Issues" :=
  ⟨(categorize_failure_table_behavior
      { failure_category := some "API_TIMEOUT" }).2.1 "API_TIMEOUT"
      "Exchange Problems" rfl rfl,
   (categorize_failure_table_behavior {}).1 rfl⟩

/-- C4: for every customer in the store that is active, not yet
grandfathered, and past its launch-pricing end date, one run of the
pricing-transition check grandfathers it while leaving its current price
unchanged; the resulting record is a fixed point of the per-row
transition at every later (or earlier) time, so any further runs leave it
unchanged and its price never moves to the regular tier price; and the
whole-table check is idempotent at any fixed time. -/
theorem check_pricing_transitions_grandfathers_once
    (customers : List Customer) (now : Nat) (c : Customer)
    (hmem : c ∈ customers)
    (hexp : c.launch_pricing_ends_at.any
      (fun launch_end => decide (launch_end < now)) = true)
    (hact : c.subscription_status = "active")
    (hgf : c.is_grandfathered = false) :
    grandfather_step now c ∈ check_pricing_transitions customers now ∧
    (grandfather_step now c).is_grandfathered = true ∧
    (grandfather_step now c).current_price = c.current_price ∧
    (∀ later, grandfather_step later (grandfather_step now c) =
      grandfather_step now c) ∧
    (∀ (t : Nat) (db : List Customer),
      check_pricing_transitions (check_pricing_transitions db t) t =
        check_pricing_transitions db t) := by
  have key : ∀ (t : Nat) (x : Customer), x.is_grandfathered = true →
      grandfather_step t x = x := by
    intro t x hx
    simp [grandfather_step, hx]
  have hcond : (c.launch_pricing_ends_at.any
      (fun launch_end => decide (launch_end < now))
      && !c.is_grandfathered && (c.subscription_status == "active")) = true := by
    simp [hexp, hgf, hact]
  have hstep : grandfather_step now c =
      { c with is_grandfathered := true, current_price := c.current_price } := by
    unfold grandfather_step
    rw [if_pos hcond]
  have idem : ∀ (t : Nat) (x : Customer),
      grandfather_step t (grandfather_step t x) = grandfather_step t x := by
    intro t x
    by_cases hc : (x.launch_pricing_ends_at.any
        (fun launch_end => decide (launch_end < t))
        && !x.is_grandfathered && (x.subscription_status == "active")) = true
    · have hx : grandfather_step t x =
          { x with is_grandfathered := true, current_price := x.current_price } := by
        unfold grandfather_step
        rw [if_pos hc]
      rw [hx]
      exact key t _ rfl
    · have hx : grandfather_step t x = x := by
        unfold grandfather_step
        rw [if_neg hc]
      rw [hx]
      exact hx
  refine ⟨List.mem_map_of_mem _ hmem, ?_, ?_, ?_, ?_⟩
  · rw [hstep]
  · rw [hstep]
  · intro later
    rw [hstep]
    exact key later _ rfl
  · intro t db
    simp only [check_pricing_transitions, List.map_map]
    exact List.map_congr_left fun a _ => idem t a

/-- C4 (witness): an active, non-grandfathered pro customer whose launch
pricing ended at time 33 is grandfathered by a check at time 40 with its
price frozen at 147. -/
theorem check_pricing_transitions_grandfathers_once_witness :
    (grandfather_step 40
      { id := "cust-1", email := "a@x.com", tier := Tier.pro,
        subscription_status := "active", launch_pricing_ends_at := some 33,
        current_price := 147 }).is_grandfathered = true ∧
    (grandfather_step 40
      { id := "cust-1", email := "a@x.com", tier := Tier.pro,
        subscription_status := "active", launch_pricing_ends_at := some 33,
        current_price := 147 }).current_price = 147 := by
  have h := check_pricing_transitions_grandfathers_once
    [{ id := "cust-1", email := "a@x.com", tier := Tier.pro,
       subscription_status := "active", launch_pricing_ends_at := some 33,
       current_price := 147 }] 40
    { id := "cust-1", email := "a@x.com", tier := Tier.pro,
      subscription_status := "active", launch_pricing_ends_at := some 33,
      current_price := 147 }
    (List.mem_singleton.mpr rfl) rfl rfl rfl
  exact ⟨h.2.1, h.2.2.1⟩

/-- C5: for every customer snapshot found in the store, the price lookup
equals the three-case pricing policy of the spec, evaluated in order:
grandfathered → frozen current_price; launch window expired → regular
tier price; otherwise → launch tier price. -/
theorem get_customer_price_three_cases
    (customers : List Customer) (customer_id : String) (tier : Tier) (now : Nat)
    (c : Customer)
    (hfind : customers.find? (fun x => x.id == customer_id) = some c) :
    get_customer_price customers customer_id tier now =
      pricing_policy_spec tier c.is_grandfathered c.current_price
        (launch_window_expired c now) := by
  unfold get_customer_price pricing_policy_spec launch_window_expired
  rw [hfind]
  cases hgf : c.is_grandfathered <;>
    cases hend : c.launch_pricing_ends_at <;>
      simp [hgf, hend]

/-- C5 (witness): a grandfathered pro customer is billed its frozen price
147. -/
theorem get_customer_price_three_cases_witness :
    get_customer_price
      [{ id := "c5", tier := Tier.pro, is_grandfathered := true,
         current_price := 147 }] "c5" Tier.pro 100 = 147 :=
  (get_customer_price_three_cases
    [{ id := "c5", tier := Tier.pro, is_grandfathered := true,
       current_price := 147 }] "c5" Tier.pro 100
    { id := "c5", tier := Tier.pro, is_grandfathered := true,
      current_price := 147 } rfl).trans rfl

/-- C6: verification answers 401 (invalid credential) exactly when no
customer row carries the presented key, and a matching trial customer
whose trial end has passed is answered 402 (trial expired) — never
401. -/
theorem verify_api_access_auth_errors
    (customers : List Customer) (key : String) (now : Nat) :
    (customers.find? (fun x => x.api_key == some key) = none →
      verify_api_access customers key now =
        .error (.httpException 401 "Invalid API key")) ∧
    (∀ cu trial_end,
      customers.find? (fun x => x.api_key == some key) = some cu →
      cu.subscription_status = "trial" →
      cu.trial_ends_at = some trial_end →
      trial_end < now →
      verify_api_access customers key now =
          .error (.httpException 402 "Trial expired - payment required") ∧
        verify_api_access customers key now ≠
          .error (.httpException 401 "Invalid API key")) := by
  constructor
  · intro hfind
    unfold verify_api_access
    rw [hfind]
  · intro cu trial_end hfind hstatus hends hlt
    have heq : verify_api_access customers key now =
        .error (.httpException 402 "Trial expired - payment required") := by
      unfold verify_api_access
      rw [hfind]
      simp [hstatus, hends, hlt]
    refine ⟨heq, ?_⟩
    rw [heq]
    simp

/-- C6 (witness): an expired trial customer presenting its key is
answered 402, and an unknown key is answered 401. -/
theorem verify_api_access_auth_errors_witness :
    verify_api_access
      [{ id := "c6", api_key := some "as_trial", subscription_status := "trial",
         trial_ends_at := some 3 }] "as_trial" 10 =
      .error (.httpException 402 "Trial expired - payment required") ∧
    verify_api_access [] "as_missing" 0 =
      .error (.httpException 401 "Invalid API key") := by
  constructor
  · exact ((verify_api_access_auth_errors
      [{ id := "c6", api_key := some "as_trial", subscription_status := "trial",
         trial_ends_at := some 3 }] "as_trial" 10).2
      { id := "c6", api_key := some "as_trial", subscription_status := "trial",
        trial_ends_at := some 3 } 3 rfl rfl rfl (by decide)).1
  · exact (verify_api_access_auth_errors [] "as_missing" 0).1 rfl

/-- C10: when no stored customer matches the requested id, the price
lookup returns the launch price of the requested tier instead of
failing. -/
theorem get_customer_price_unknown_launch
    (customers : List Customer) (customer_id : String) (tier : Tier) (now : Nat)
    (hfind : customers.find? (fun c => c.id == customer_id) = none) :
    get_customer_price customers customer_id tier now = (pricing tier).launch := by
  unfold get_customer_price
  rw [hfind]

/-- C10 (witness): an unknown customer on the basic tier is priced at the
launch price 67. -/
theorem get_customer_price_unknown_launch_witness :
    get_customer_price [] "nobody" Tier.basic 0 = 67 :=
  (get_customer_price_unknown_launch [] "nobody" Tier.basic 0 rfl).trans rfl

/-- C9: activating a customer id absent from the store does not produce a
structured NotFound error — the source subscripts the None re-read row
and raises a TypeError (modelled by PyError.noneAccess, surfaced as a
500) — while the customer table is left unchanged. -/
theorem activate_unknown_customer_crashes :
    activate_subscription [] "missing" "as_key9" 0 =
      ([], Except.error PyError.noneAccess) ∧
    activate_subscription
      [{ id := "other", email := "o@x.com" }] "missing" "as_key9" 0 =
      ([{ id := "other", email := "o@x.com" }],
       Except.error PyError.noneAccess) := ⟨rfl, rfl⟩

/-- C1: two payment confirmations for the same external payment
reference mint two distinct API keys — the second confirmation returns
the freshly minted second key and overwrites the stored key, instead of
returning the existing key as the claim requires. -/
theorem double_payment_confirmation_mints_new_key :
    minted_key (handle_payment_confirmation
      (handle_payment_confirmation
        { customers :=
            [{ id := "c1", email := "a@x.com", tier := Tier.pro,
               trial_ends_at := some 3, launch_pricing_ends_at := some 33,
               current_price := 147 }],
          payments :=
            [{ id := "p1", customer_id := "c1",
               nowpayments_id := "np1", amount_usd := 147 }] }
        "np1" "as_key1" 50).1
      "np1" "as_key2" 60).2 = some "as_key2" ∧
    (handle_payment_confirmation
      (handle_payment_confirmation
        { customers :=
            [{ id := "c1", email := "a@x.com", tier := Tier.pro,
               trial_ends_at := some 3, launch_pricing_ends_at := some 33,
               current_price := 147 }],
          payments :=
            [{ id := "p1", customer_id := "c1",
               nowpayments_id := "np1", amount_usd := 147 }] }
        "np1" "as_key1" 50).1
      "np1" "as_key2" 60).1.customers.map Customer.api_key = [some "as_key2"] ∧
    minted_key (handle_payment_confirmation
      { customers :=
          [{ id := "c1", email := "a@x.com", tier := Tier.pro,
             trial_ends_at := some 3, launch_pricing_ends_at := some 33,
             current_price := 147 }],
        payments :=
          [{ id := "p1", customer_id := "c1",
             nowpayments_id := "np1", amount_usd := 147 }] }
      "np1" "as_key1" 50).2 = some "as_key1" ∧
    ("as_key2" : String) ≠ "as_key1" := ⟨rfl, rfl, rfl, by decide⟩

end ArbSig
